import Mathlib

/-!
Verification of the form-validation, composition and notification logic of
the Coffee Corner site, embedded from the script file of the site
(public/TheCoffeeCorner/js/script.js).

Modelling conventions:
- JavaScript strings are Lean String values; lengths are counted in
  characters (identical to the source for all basic-plane text).
- Machine numbers are Int; the arithmetic in the source (guest counts,
  costs, millisecond timestamps) never overflows or uses fractions except
  one Math.ceil division, modelled exactly with integer ceiling division.
- Date parsing is modelled for the YYYY-MM-DD strings produced by the date
  form control; any other nonempty string behaves like an invalid date
  (all its comparisons are false, as NaN comparisons are in the source).
  The timezone is fixed to UTC, so the UTC midnight produced by parsing a
  date string and the local midnight produced by setHours coincide.
- Absent form controls or absent values are modelled as Option.none; the
  source maps them to the empty string through the (el || \x7b\x7d).value
  fallback, optional chaining and the logical-or defaults.
-/

/-- Whitespace class of JavaScript regular expressions and trimming
(the \s class): ASCII whitespace, NBSP, Unicode space separators, line
separators and the BOM. -/
def jsWhitespace (c : Char) : Bool :=
  c = ' ' || c = '\t' || c = '\n' || c = '\r' ||
  c.toNat = 0x0b || c.toNat = 0x0c || c.toNat = 0xa0 || c.toNat = 0x1680 ||
  (0x2000 ≤ c.toNat && c.toNat ≤ 0x200a) ||
  c.toNat = 0x2028 || c.toNat = 0x2029 || c.toNat = 0x202f ||
  c.toNat = 0x205f || c.toNat = 0x3000 || c.toNat = 0xfeff

/-- Model of String.prototype.trim: drop leading and trailing whitespace. -/
def jsTrim (s : String) : String :=
  String.mk (((s.toList.dropWhile jsWhitespace).reverse.dropWhile jsWhitespace).reverse)

/-- Decimal value of a digit list (most significant first). -/
def digitsToNat (cs : List Char) : Nat :=
  cs.foldl (fun a c => 10 * a + (c.toNat - 48)) 0

/-- Model of parseInt(s, 10): skip leading whitespace, read an optional
sign and then a nonempty digit prefix; none models NaN. -/
def jsParseInt (s : String) : Option Int :=
  let cs := s.toList.dropWhile jsWhitespace
  let signRest : Int × List Char :=
    match cs with
    | '-' :: r => (-1, r)
    | '+' :: r => (1, r)
    | r => (1, r)
  let digits := signRest.2.takeWhile Char.isDigit
  if digits.isEmpty then none
  else some (signRest.1 * (digitsToNat digits : Int))

/-- Character class of the email regular expression: not whitespace and
not the at sign (the class written as a caret, backslash-s and at). -/
def emailCharOK (c : Char) : Bool := !jsWhitespace c && c != '@'

/-- There is a dot in the list with at least one character after it. -/
def dotThenMore : List Char → Bool
  | [] => false
  | c :: rest => (c == '.' && !rest.isEmpty) || dotThenMore rest

/-- There is a dot that is neither the first nor the last character. -/
def internalDot : List Char → Bool
  | [] => false
  | _ :: rest => dotThenMore rest

/-- Compiled form of the email regular expression of script.js lines 128
and 175 (nonempty run of non-whitespace non-at characters, an at sign,
then a run containing a dot with nonempty runs on both sides). -/
def emailTestL (cs : List Char) : Bool :=
  match cs.dropWhile (fun c => c != '@') with
  | '@' :: post =>
      !(cs.takeWhile (fun c => c != '@')).isEmpty &&
      (cs.takeWhile (fun c => c != '@')).all emailCharOK &&
      post.all emailCharOK && internalDot post
  | _ => false

/-- Test of the email pattern on a string. -/
def emailTest (s : String) : Bool := emailTestL s.toList

/-- Character class of the phone regular expression of lines 130 and 177:
digits, whitespace, hyphen, parentheses and plus sign. -/
def isPhoneChar (c : Char) : Bool :=
  c.isDigit || jsWhitespace c || c = '-' || c = '(' || c = ')' || c = '+'

/-- Test of the phone pattern: 10 to 15 characters of the phone class. -/
def phoneTest (s : String) : Bool :=
  10 ≤ s.length && s.length ≤ 15 && s.toList.all isPhoneChar

/-- Milliseconds per day, the divisor used at line 180. -/
def MS_PER_DAY : Int := 86400000

/-- Gregorian leap-year rule. -/
def isLeap (y : Int) : Bool := (y % 4 = 0 && y % 100 ≠ 0) || y % 400 = 0

/-- Number of days in a month. -/
def daysInMonth (y : Int) (m : Nat) : Nat :=
  if m = 2 then (if isLeap y then 29 else 28)
  else if m = 4 || m = 6 || m = 9 || m = 11 then 30 else 31

/-- Days since 1970-01-01 of a civil date (standard civil-calendar
conversion, evaluated with floor division). -/
def daysFromCivil (y : Int) (m d : Nat) : Int :=
  let yAdj : Int := if m ≤ 2 then y - 1 else y
  let era : Int := Int.fdiv yAdj 400
  let yoe : Int := yAdj - era * 400
  let mp : Nat := (m + 9) % 12
  let doy : Int := ((153 * mp + 2) / 5 + d - 1 : Nat)
  let doe : Int := yoe * 365 + Int.fdiv yoe 4 - Int.fdiv yoe 100 + doy
  era * 146097 + doe - 719468

/-- Split a character list at every occurrence of a separator character,
as String.prototype.split with a one-character separator. -/
def splitOnChar (sep : Char) : List Char → List (List Char)
  | [] => [[]]
  | c :: rest =>
      let r := splitOnChar sep rest
      if c == sep then [] :: r
      else
        match r with
        | [] => [[c]]
        | h :: t => (c :: h) :: t

/-- Parse a YYYY-MM-DD string into year, month and day; none models an
invalid date. -/
def parseCivil (s : String) : Option (Int × Nat × Nat) :=
  match splitOnChar '-' s.toList with
  | [ys, ms, ds] =>
      if ys.length = 4 && ms.length = 2 && ds.length = 2 &&
         ys.all Char.isDigit && ms.all Char.isDigit && ds.all Char.isDigit then
        let y : Int := (digitsToNat ys : Nat)
        let m := digitsToNat ms
        let d := digitsToNat ds
        if 1 ≤ m && m ≤ 12 && 1 ≤ d && d ≤ daysInMonth y m then
          some (y, m, d)
        else none
      else none
  | _ => none

/-- Millisecond timestamp of new Date(s) for a date-control string: UTC
midnight of the parsed civil date. -/
def parseDateMs (s : String) : Option Int :=
  (parseCivil s).map (fun x => MS_PER_DAY * daysFromCivil x.1 x.2.1 x.2.2)

/-- Model of today.setHours(0,0,0,0) at line 180: the current timestamp
floored to midnight. -/
def todayMidnight (nowMs : Int) : Int :=
  MS_PER_DAY * Int.fdiv nowMs MS_PER_DAY

/-- Math.ceil of the rational a / b for positive b. -/
def ceilDiv (a b : Int) : Int := Int.fdiv (a + b - 1) b

/-- Weekday names of the en-US locale, indexed as by getDay. -/
def weekdayNames : List String :=
  ["Sunday", "Monday", "Tuesday", "Wednesday", "Thursday", "Friday", "Saturday"]

/-- Month names of the en-US locale. -/
def monthNames : List String :=
  ["January", "February", "March", "April", "May", "June", "July",
   "August", "September", "October", "November", "December"]

/-- Model of toLocaleDateString with the long weekday option (line 200). -/
def jsWeekdayLong (date : String) : String :=
  match parseCivil date with
  | none => "Invalid Date"
  | some x => weekdayNames.getD (Int.emod (daysFromCivil x.1 x.2.1 x.2.2 + 4) 7).toNat ""

/-- Model of toLocaleDateString with long weekday, long month, numeric day
and numeric year (line 201). -/
def jsLongDate (date : String) : String :=
  match parseCivil date with
  | none => "Invalid Date"
  | some x =>
      jsWeekdayLong date ++ ", " ++ monthNames.getD (x.2.1 - 1) "" ++ " " ++
      toString x.2.2 ++ ", " ++ toString x.1

/-- Hexadecimal digit characters. -/
def hexDigit (n : Nat) : Char := "0123456789ABCDEF".toList.getD n '0'

/-- Two-digit uppercase hexadecimal rendering of a byte. -/
def hex2 (n : Nat) : String := String.mk [hexDigit (n / 16), hexDigit (n % 16)]

/-- UTF-8 bytes of a character. -/
def utf8Bytes (c : Char) : List Nat :=
  let n := c.toNat
  if n < 0x80 then [n]
  else if n < 0x800 then [0xc0 + n / 64, 0x80 + n % 64]
  else if n < 0x10000 then [0xe0 + n / 4096, 0x80 + (n / 64) % 64, 0x80 + n % 64]
  else [0xf0 + n / 262144, 0x80 + (n / 4096) % 64, 0x80 + (n / 64) % 64, 0x80 + n % 64]

/-- Model of encodeURIComponent on one character: unreserved characters
pass through, everything else is percent-encoded bytewise. -/
def encodeURIComponentChar (c : Char) : String :=
  if c.isAlphanum || c = '-' || c = '_' || c = '.' || c = '!' || c = '~' ||
     c = '*' || c = '\'' || c = '(' || c = ')' then String.singleton c
  else String.join ((utf8Bytes c).map (fun b => "%" ++ hex2 b))

/-- Model of encodeURIComponent. -/
def encodeURIComponent (s : String) : String :=
  String.join (s.toList.map encodeURIComponentChar)

/-- Model of Number.prototype.toLocaleString in the en-US locale for the
integers produced by the cost computation: decimal digits grouped in
threes by commas (line 198). -/
def jsToLocaleString (v : Int) : String :=
  let s := toString v.natAbs
  let n := s.length
  let grouped :=
    String.mk ((s.toList.enum.map (fun p =>
      if p.1 + 1 < n && (n - p.1 - 1) % 3 = 0 then [p.2, ','] else [p.2])).flatten)
  if v < 0 then "-" ++ grouped else grouped

/-- Capitalize the first character, as charAt(0).toUpperCase() plus
slice(1) at line 210. -/
def capitalizeFirst (s : String) : String :=
  match s.toList with
  | [] => ""
  | c :: rest => String.mk (c.toUpper :: rest)

/-- Resolved options of a showNotification call, after the destructuring
defaults of line 39 (type success, duration 5000, list null) have been
applied. The ntype field models the type option. -/
structure NotificationRequest where
  title : String
  message : String
  ntype : String
  duration : Int
  list : Option (List String)
deriving DecidableEq

/-- Time, relative to creation, at which the auto-dismiss timer clicks the
close control: scheduled only when the type is not error (lines 86 to 92). -/
def autoDismissAt (o : NotificationRequest) : Option Int :=
  if o.ntype = "error" then none else some o.duration

/-- Fixed delay between the close click and removal from the document,
the exit-animation grace period of lines 72 to 77. -/
def removalDelayAfterClose : Int := 300

/-- Time, relative to creation, at which the notification is removed from
the document absent manual dismissal: the auto-dismiss click plus the
fixed removal delay. -/
def autoRemovalAt (o : NotificationRequest) : Option Int :=
  (autoDismissAt o).map (fun t => t + removalDelayAfterClose)

/-- Read a field that the handler trims: the value of an absent control or
value is the empty string, a present value is trimmed (the optional
chaining with the logical-or default of lines 119 to 124 and 165 to 171). -/
def readTrim (v : Option String) : String := jsTrim (v.getD "")

/-- Read a field taken verbatim with an empty-string default (location,
subject, event type and date reads). -/
def readOpt (v : Option String) : String := v.getD ""

/-- Read the guests field: parseInt of the value with a literal zero
fallback for an absent or empty value, and a final zero default for a
failed parse (line 169). -/
def readGuests (v : Option String) : Int :=
  let s := match v with
           | none => "0"
           | some s => if s = "" then "0" else s
  (jsParseInt s).getD 0

/-- Raw contact form controls; none models an absent control or value. -/
structure ContactRaw where
  name : Option String
  email : Option String
  phone : Option String
  location : Option String
  subject : Option String
  message : Option String

/-- Contact field values as read by the handler. -/
structure ContactData where
  name : String
  email : String
  phone : String
  location : String
  subject : String
  message : String

/-- Field reads of the contact handler, lines 119 to 124. -/
def readContact (r : ContactRaw) : ContactData :=
  ⟨readTrim r.name, readTrim r.email, readTrim r.phone,
   readOpt r.location, readOpt r.subject, readTrim r.message⟩

/-- Raw catering form controls. -/
structure CateringRaw where
  name : Option String
  email : Option String
  phone : Option String
  eventType : Option String
  guests : Option String
  date : Option String
  specialRequests : Option String

/-- Catering field values as read by the handler. -/
structure CateringData where
  name : String
  email : String
  phone : String
  eventType : String
  guests : Int
  date : String
  specialRequests : String

/-- Field reads of the catering handler, lines 165 to 171. -/
def readCatering (r : CateringRaw) : CateringData :=
  ⟨readTrim r.name, readTrim r.email, readTrim r.phone,
   readOpt r.eventType, readGuests r.guests, readOpt r.date,
   readTrim r.specialRequests⟩

/-- Error message pushed by the name check. -/
def nameShortMsg : String := "• Name must be at least 2 characters long"

/-- Error message pushed by the email check. -/
def emailInvalidMsg : String := "• Please enter a valid email address"

/-- Error message pushed by the contact phone check. -/
def contactPhoneMsg : String := "• Phone number must be 10-15 digits"

/-- Error message pushed by the subject check. -/
def subjectRequiredMsg : String := "• Please select a subject for your message"

/-- Error message pushed by the message-length check. -/
def messageShortMsg : String := "• Message must be at least 10 characters long"

/-- Error message pushed by the catering phone check. -/
def cateringPhoneMsg : String := "• Please enter a valid phone number (10-15 digits)"

/-- Error message pushed by the event-type check. -/
def eventTypeMsg : String := "• Please select an event type"

/-- Error message pushed by the guests check. -/
def guestsRangeMsg : String := "• Number of guests must be between 10 and 500"

/-- Error message pushed when the date is empty. -/
def dateRequiredMsg : String := "• Please select a preferred date for your event"

/-- Error message pushed when the date is before today. -/
def futureDateMsg : String := "• Please select a future date for your event"

/-- Advisory message pushed when the event is fewer than 7 days away;
the source pushes it without touching the validity flag. -/
def advisoryMsg : String := "• We recommend booking at least 7 days in advance"

/-- Name check of lines 127 and 174. -/
def nameErrors (name : String) : List String :=
  if name.length < 2 then [nameShortMsg] else []

/-- Email check of the contact handler, lines 128 and 129. -/
def contactEmailErrors (email : String) : List String :=
  if emailTest email then [] else [emailInvalidMsg]

/-- Phone check of the contact handler, line 130: only a nonempty phone
is tested against the pattern. -/
def contactPhoneErrors (phone : String) : List String :=
  if phone = "" then []
  else if phoneTest phone then [] else [contactPhoneMsg]

/-- Subject check of line 131. -/
def subjectErrors (subject : String) : List String :=
  if subject = "" then [subjectRequiredMsg] else []

/-- Message-length check of line 132. -/
def messageErrors (message : String) : List String :=
  if message.length < 10 then [messageShortMsg] else []

/-- Email check of the catering handler, lines 175 and 176. -/
def cateringEmailErrors (email : String) : List String :=
  if emailTest email then [] else [emailInvalidMsg]

/-- Phone check of the catering handler, line 177: the pattern is applied
unconditionally. -/
def cateringPhoneErrors (phone : String) : List String :=
  if phoneTest phone then [] else [cateringPhoneMsg]

/-- Event-type check of line 178. -/
def eventTypeErrors (eventType : String) : List String :=
  if eventType = "" then [eventTypeMsg] else []

/-- Guests check of line 179: the falsy test on zero and the range test. -/
def guestsErrors (guests : Int) : List String :=
  if guests = 0 ∨ guests < 10 ∨ 500 < guests then [guestsRangeMsg] else []

/-- Blocking part of the date check of line 180: empty date, or a parsed
date earlier than the midnight-normalized current day. An unparseable
nonempty date produces no message, since comparisons on an invalid date
are false in the source. -/
def dateBlockingErrors (nowMs : Int) (date : String) : List String :=
  if date = "" then [dateRequiredMsg]
  else
    match parseDateMs date with
    | none => []
    | some sel => if sel < todayMidnight nowMs then [futureDateMsg] else []

/-- Advisory part of the date check of line 180: pushed when the ceiling
of the day distance to the event is below 7, without invalidating. -/
def dateAdvisoryErrors (nowMs : Int) (date : String) : List String :=
  if date = "" then []
  else
    match parseDateMs date with
    | none => []
    | some sel =>
        if ceilDiv (sel - todayMidnight nowMs) MS_PER_DAY < 7 then [advisoryMsg]
        else []

/-- Error list accumulated by the contact handler, in push order of
lines 127 to 132. -/
def contactErrors (f : ContactData) : List String :=
  nameErrors f.name ++ contactEmailErrors f.email ++
  contactPhoneErrors f.phone ++ subjectErrors f.subject ++
  messageErrors f.message

/-- Validity flag of the contact handler: the source clears it exactly
when one of the five checks pushes its message. -/
def contactIsValid (f : ContactData) : Bool :=
  (nameErrors f.name).isEmpty && (contactEmailErrors f.email).isEmpty &&
  (contactPhoneErrors f.phone).isEmpty && (subjectErrors f.subject).isEmpty &&
  (messageErrors f.message).isEmpty

/-- Validation result of the contact handler. -/
def contactValidate (f : ContactData) : Bool × List String :=
  (contactIsValid f, contactErrors f)

/-- Error list accumulated by the catering handler, in push order of
lines 174 to 180; the advisory is pushed last, inside the date block. -/
def cateringErrors (nowMs : Int) (f : CateringData) : List String :=
  nameErrors f.name ++ cateringEmailErrors f.email ++
  cateringPhoneErrors f.phone ++ eventTypeErrors f.eventType ++
  guestsErrors f.guests ++ dateBlockingErrors nowMs f.date ++
  dateAdvisoryErrors nowMs f.date

/-- Validity flag of the catering handler: cleared exactly by the six
blocking checks; the advisory push leaves it untouched. -/
def cateringIsValid (nowMs : Int) (f : CateringData) : Bool :=
  (nameErrors f.name).isEmpty && (cateringEmailErrors f.email).isEmpty &&
  (cateringPhoneErrors f.phone).isEmpty && (eventTypeErrors f.eventType).isEmpty &&
  (guestsErrors f.guests).isEmpty && (dateBlockingErrors nowMs f.date).isEmpty

/-- Validation result of the catering handler. -/
def cateringValidate (nowMs : Int) (f : CateringData) : Bool × List String :=
  (cateringIsValid nowMs f, cateringErrors nowMs f)

/-- Outcome of one contact submit event: the single notification shown,
the composed mailto link handed to the location change when validation
passed, and whether the form was reset. -/
structure ContactOutcome where
  notification : NotificationRequest
  mailto : Option String
  formReset : Bool
deriving DecidableEq

/-- Derived catering quote values of lines 193 to 201. -/
structure CateringQuote where
  costPerPerson : Int
  totalCost : Int
  dayOfWeek : String
  formattedDate : String
deriving DecidableEq

/-- Outcome of one catering submit event. -/
structure CateringOutcome where
  notification : NotificationRequest
  quote : Option CateringQuote
  formReset : Bool
deriving DecidableEq

/-- Per-person cost tier of lines 193 to 195. -/
def costPerPersonFor (eventType : String) : Int :=
  if eventType = "wedding" then 250
  else if eventType = "corporate" then 180
  else 150

/-- Contact submit handler, lines 117 to 157. The error branch shows one
persistent error notification with the collected list and returns with
the form retained; the success branch composes the mail body and link,
shows one success notification with the default duration and resets. -/
def contactHandler (r : ContactRaw) : ContactOutcome :=
  let f := readContact r
  if contactIsValid f then
    let emailBody :=
      "Name: " ++ f.name ++ "\nEmail: " ++ f.email ++ "\nPhone: " ++
      (if f.phone = "" then "Not provided" else f.phone) ++
      "\nPreferred Location: " ++
      (if f.location = "" then "Not specified" else f.location) ++
      "\nSubject: " ++ f.subject ++ "\n\nMessage:\n" ++ f.message
    let mailtoLink :=
      "mailto:info@coffeecorner.co.za?subject=" ++
      encodeURIComponent ("Contact Form: " ++ f.subject) ++
      "&body=" ++ encodeURIComponent emailBody
    ⟨⟨"✓ Message Ready to Send",
      "Thank you for your message, " ++ f.name ++
      "! Your email client will open to send the message. We will respond within 24 hours.",
      "success", 5000, none⟩, some mailtoLink, true⟩
  else
    ⟨⟨"❌ Form Validation Error", "Please correct the following errors:",
      "error", 0, some (contactErrors f)⟩, none, false⟩

/-- Rich success summary of the catering handler, the template of
lines 206 to 235 with its interpolations. -/
def cateringSuccessMessage (f : CateringData) (costPerPerson : Int)
    (formattedCost dayOfWeek formattedDate : String) : String :=
  "\n                    <p>Thank you for your enquiry, " ++ f.name ++ "!</p>\n" ++
  "                    <h4>Event Details</h4>\n" ++
  "                    <ul>\n" ++
  "                        <li>Event Type: " ++ capitalizeFirst f.eventType ++ "</li>\n" ++
  "                        <li>Number of Guests: " ++ toString f.guests ++ "</li>\n" ++
  "                        <li>Preferred Date: " ++ formattedDate ++ "</li>\n" ++
  "                    </ul>\n" ++
  "                    <h4>Estimated Cost</h4>\n" ++
  "                    <ul>\n" ++
  "                        <li>Cost per Person: R" ++ toString costPerPerson ++ "</li>\n" ++
  "                        <li>Total Estimate: " ++ formattedCost ++ "</li>\n" ++
  "                    </ul>\n" ++
  "                    <h4>Availability</h4>\n" ++
  "                    <p>Your selected date (" ++ dayOfWeek ++ ") is currently available!</p>\n" ++
  "                    <h4>Next Steps</h4>\n" ++
  "                    <p>Our catering team will contact you within 24 hours at:</p>\n" ++
  "                    <ul>\n" ++
  "                        <li>📧 " ++ f.email ++ "</li>\n" ++
  "                        <li>📞 " ++ f.phone ++ "</li>\n" ++
  "                    </ul>\n" ++
  "                    <p>We will discuss:</p>\n" ++
  "                    <ul>\n" ++
  "                        <li>Menu customization options</li>\n" ++
  "                        <li>Exact pricing and packages</li>\n" ++
  "                        <li>Setup and delivery details</li>\n" ++
  "                        " ++
  (if f.specialRequests = "" then "" else "<li>Your special requests</li>") ++ "\n" ++
  "                    </ul>\n" ++
  "                    <p><small>Note: This is an estimate only. Final pricing will be confirmed after consultation.</small></p>\n" ++
  "                "

/-- Catering submit handler, lines 163 to 240. The error branch shows one
persistent error notification with the collected list; the success branch
computes the quote, composes the summary, shows one success notification
for ten seconds and resets the form. -/
def cateringHandler (nowMs : Int) (r : CateringRaw) : CateringOutcome :=
  let f := readCatering r
  if cateringIsValid nowMs f then
    let costPerPerson := costPerPersonFor f.eventType
    let totalCost := f.guests * costPerPerson
    let formattedCost := "R" ++ jsToLocaleString totalCost
    let dayOfWeek := jsWeekdayLong f.date
    let formattedDate := jsLongDate f.date
    ⟨⟨"✓ Catering Enquiry Confirmed",
      cateringSuccessMessage f costPerPerson formattedCost dayOfWeek formattedDate,
      "success", 10000, none⟩,
     some ⟨costPerPerson, totalCost, dayOfWeek, formattedDate⟩, true⟩
  else
    ⟨⟨"❌ Form Validation Error", "Please correct the following errors:",
      "error", 0, some (cateringErrors nowMs f)⟩, none, false⟩

/-- Contact form with every control absent. -/
def contactAllAbsent : ContactRaw := ⟨none, none, none, none, none, none⟩

/-- Catering form with every control absent. -/
def cateringAllAbsent : CateringRaw := ⟨none, none, none, none, none, none, none⟩

/-- Catering submission of the second end-to-end example of the spec. -/
def annaRaw : CateringRaw :=
  ⟨some "Anna Smith", some "a@b.com", some "0821234567", some "wedding",
   some "100", some "1970-02-01", none⟩

/-- Spec wording of the email shape: a nonempty local part, a single at
sign, then a domain containing a dot with nonempty runs on both sides,
all characters non-whitespace and distinct from the at sign. -/
def specEmailShapeL (cs : List Char) : Prop :=
  ∃ l d t : List Char,
    cs = l ++ '@' :: (d ++ '.' :: t) ∧ l ≠ [] ∧ d ≠ [] ∧ t ≠ [] ∧
    (∀ c ∈ l, emailCharOK c = true) ∧ (∀ c ∈ d, emailCharOK c = true) ∧
    (∀ c ∈ t, emailCharOK c = true)

/-- Spec wording of the email shape on a string. -/
def specEmailShape (s : String) : Prop := specEmailShapeL s.toList

/-- Spec wording of the phone character set: digits, the space character,
hyphen, parentheses and plus sign. -/
def specPhoneChar (c : Char) : Bool :=
  c.isDigit || c = ' ' || c = '-' || c = '(' || c = ')' || c = '+'

theorem isEmpty_app (l r : List String) :
    (l ++ r).isEmpty = (l.isEmpty && r.isEmpty) := by
  cases l <;> simp

theorem takeWhile_split (p : Char → Bool) (l : List Char) (x : Char)
    (r : List Char) (hl : ∀ c ∈ l, p c = true) (hx : p x = false) :
    (l ++ x :: r).takeWhile p = l ∧ (l ++ x :: r).dropWhile p = x :: r := by
  induction l with
  | nil => simp [List.takeWhile_cons, List.dropWhile_cons, hx]
  | cons a as ih =>
      have ha : p a = true := hl a (by simp)
      have h2 := ih (fun c hc => hl c (by simp [hc]))
      constructor
      · rw [List.cons_append, List.takeWhile_cons, ha, if_pos rfl, h2.1]
      · rw [List.cons_append, List.dropWhile_cons, ha, if_pos rfl, h2.2]

theorem dropWhile_head_not (p : Char → Bool) (l : List Char) (c : Char)
    (rest : List Char) (h : l.dropWhile p = c :: rest) : p c = false := by
  induction l with
  | nil => simp [List.dropWhile] at h
  | cons a as ih =>
      rw [List.dropWhile_cons] at h
      by_cases hpa : p a = true
      · rw [if_pos hpa] at h
        exact ih h
      · rw [if_neg hpa] at h
        cases h
        simpa using hpa

theorem dotThenMore_iff (xs : List Char) :
    dotThenMore xs = true ↔ ∃ a b : List Char, xs = a ++ '.' :: b ∧ b ≠ [] := by
  induction xs with
  | nil =>
      simp [dotThenMore]
  | cons c rest ih =>
      rw [dotThenMore]
      simp only [Bool.or_eq_true, Bool.and_eq_true, beq_iff_eq, ih]
      constructor
      · rintro (⟨hc, hr⟩ | ⟨a, b, rfl, hb⟩)
        · subst hc
          exact ⟨[], rest, rfl, by simpa using hr⟩
        · exact ⟨c :: a, b, rfl, hb⟩
      · rintro ⟨a, b, heq, hb⟩
        cases a with
        | nil =>
            simp only [List.nil_append] at heq
            cases heq
            exact Or.inl ⟨rfl, by simpa using hb⟩
        | cons y ys =>
            simp only [List.cons_append, List.cons.injEq] at heq
            exact Or.inr ⟨ys, b, heq.2, hb⟩

theorem internalDot_iff (xs : List Char) :
    internalDot xs = true ↔
      ∃ d t : List Char, xs = d ++ '.' :: t ∧ d ≠ [] ∧ t ≠ [] := by
  cases xs with
  | nil =>
      simp [internalDot]
  | cons c rest =>
      rw [internalDot, dotThenMore_iff]
      constructor
      · rintro ⟨a, b, rfl, hb⟩
        exact ⟨c :: a, b, rfl, by simp, hb⟩
      · rintro ⟨d, t, heq, hd, ht⟩
        cases d with
        | nil => exact absurd rfl hd
        | cons y ys =>
            simp only [List.cons_append, List.cons.injEq] at heq
            exact ⟨ys, t, heq.2, ht⟩

theorem emailTestL_iff (cs : List Char) :
    emailTestL cs = true ↔ specEmailShapeL cs := by
  constructor
  · intro h
    rw [emailTestL] at h
    cases hdrop : cs.dropWhile (fun c => c != '@') with
    | nil => rw [hdrop] at h; simp at h
    | cons c post =>
        have hc : (c != '@') = false := dropWhile_head_not _ cs c post hdrop
        have hceq : c = '@' := by simpa using hc
        subst hceq
        rw [hdrop] at h
        simp only [Bool.and_eq_true, Bool.not_eq_true', List.all_eq_true] at h
        obtain ⟨⟨⟨hpre, hpreOK⟩, hpostOK⟩, hdot⟩ := h
        obtain ⟨d, t, hpost, hd, ht⟩ := (internalDot_iff post).mp hdot
        refine ⟨cs.takeWhile (fun c => c != '@'), d, t, ?_, ?_, hd, ht, ?_, ?_, ?_⟩
        · rw [← hpost, ← hdrop]
          exact (List.takeWhile_append_dropWhile _ cs).symm
        · intro habs
          rw [habs] at hpre
          simp [List.isEmpty] at hpre
        · exact hpreOK
        · intro x hx
          exact hpostOK x (by rw [hpost]; exact List.mem_append_left _ hx)
        · intro x hx
          refine hpostOK x ?_
          rw [hpost]
          exact List.mem_append_right _ (by simp [hx])
  · rintro ⟨l, d, t, rfl, hl, hd, ht, hlOK, hdOK, htOK⟩
    have hlne : ∀ c ∈ l, (c != '@') = true := by
      intro c hc
      have := hlOK c hc
      rw [emailCharOK, Bool.and_eq_true] at this
      exact this.2
    have hsplit := takeWhile_split (fun c => c != '@') l '@' (d ++ '.' :: t)
      hlne (by simp)
    rw [emailTestL, hsplit.2, hsplit.1]
    simp only [Bool.and_eq_true, Bool.not_eq_true', List.all_eq_true]
    refine ⟨⟨⟨?_, hlOK⟩, ?_⟩, ?_⟩
    · cases l with
      | nil => exact absurd rfl hl
      | cons a as => simp [List.isEmpty]
    · intro x hx
      rcases List.mem_append.mp hx with h1 | h2
      · exact hdOK x h1
      · rcases List.mem_cons.mp h2 with h3 | h4
        · subst h3; rfl
        · exact htOK x h4
    · exact (internalDot_iff _).mpr ⟨d, t, rfl, hd, ht⟩

theorem emailTest_iff (s : String) :
    emailTest s = true ↔ specEmailShape s := emailTestL_iff s.toList

theorem filter_ite_ne (c : Prop) [Decidable c] (m b : String)
    (hm : (m != b) = true) :
    (if c then [m] else []).filter (fun x => x != b) = (if c then [m] else []) := by
  split
  · simp [hm]
  · rfl

theorem filter_ite_ne2 (c : Prop) [Decidable c] (m b : String)
    (hm : (m != b) = true) :
    (if c then [] else [m]).filter (fun x => x != b) = (if c then [] else [m]) := by
  split
  · rfl
  · simp [hm]

theorem nameErrors_filter (n : String) :
    (nameErrors n).filter (fun x => x != advisoryMsg) = nameErrors n := by
  rw [nameErrors]; exact filter_ite_ne _ _ _ (by decide)

theorem cateringEmailErrors_filter (e : String) :
    (cateringEmailErrors e).filter (fun x => x != advisoryMsg) = cateringEmailErrors e := by
  rw [cateringEmailErrors]; exact filter_ite_ne2 _ _ _ (by decide)

theorem cateringPhoneErrors_filter (p : String) :
    (cateringPhoneErrors p).filter (fun x => x != advisoryMsg) = cateringPhoneErrors p := by
  rw [cateringPhoneErrors]; exact filter_ite_ne2 _ _ _ (by decide)

theorem eventTypeErrors_filter (e : String) :
    (eventTypeErrors e).filter (fun x => x != advisoryMsg) = eventTypeErrors e := by
  rw [eventTypeErrors]; exact filter_ite_ne _ _ _ (by decide)

theorem guestsErrors_filter (g : Int) :
    (guestsErrors g).filter (fun x => x != advisoryMsg) = guestsErrors g := by
  rw [guestsErrors]; exact filter_ite_ne _ _ _ (by decide)

theorem dateBlockingErrors_filter (nowMs : Int) (date : String) :
    (dateBlockingErrors nowMs date).filter (fun x => x != advisoryMsg) =
      dateBlockingErrors nowMs date := by
  rw [dateBlockingErrors]
  split
  · simp
    decide
  · split
    · rfl
    · exact filter_ite_ne _ _ _ (by decide)

theorem dateAdvisoryErrors_filter (nowMs : Int) (date : String) :
    (dateAdvisoryErrors nowMs date).filter (fun x => x != advisoryMsg) = [] := by
  rw [dateAdvisoryErrors]
  split
  · rfl
  · split
    · rfl
    · split
      · simp
      · rfl

/-- Claim C1 counterexample: a catering submission in which every blocking
check passes but the event is three days away has the valid flag true
while the errors list is the nonempty advisory singleton, so valid does
not hold exactly when the errors list is empty. -/
theorem advisory_only_counterexample :
    (cateringValidate 0
      ⟨"Anna Smith", "a@b.com", "0821234567", "wedding", 100, "1970-01-04", ""⟩).1
      = true ∧
    (cateringValidate 0
      ⟨"Anna Smith", "a@b.com", "0821234567", "wedding", 100, "1970-01-04", ""⟩).2
      = [advisoryMsg] ∧
    ([advisoryMsg] : List String) ≠ [] := by decide

/-- Claim C1 amended: on the contact path the valid flag holds exactly
when the errors list is empty; on the catering path it holds exactly when
the errors list is empty after discarding the non-blocking 7-day advisory
message, which can appear in the list of a submission whose flag stays
true. -/
theorem valid_iff_no_blocking_messages :
    (∀ f : ContactData,
      (contactValidate f).1 = (contactValidate f).2.isEmpty) ∧
    (∀ (nowMs : Int) (f : CateringData),
      (cateringValidate nowMs f).1 =
        ((cateringValidate nowMs f).2.filter (fun m => m != advisoryMsg)).isEmpty) := by
  constructor
  · intro f
    show contactIsValid f = (contactErrors f).isEmpty
    rw [contactErrors, isEmpty_app, isEmpty_app, isEmpty_app, isEmpty_app]
    rfl
  · intro nowMs f
    show cateringIsValid nowMs f = _
    show _ = ((cateringErrors nowMs f).filter (fun m => m != advisoryMsg)).isEmpty
    rw [cateringErrors, List.filter_append, List.filter_append,
        List.filter_append, List.filter_append, List.filter_append,
        List.filter_append, nameErrors_filter, cateringEmailErrors_filter,
        cateringPhoneErrors_filter, eventTypeErrors_filter, guestsErrors_filter,
        dateBlockingErrors_filter, dateAdvisoryErrors_filter, List.append_nil,
        isEmpty_app, isEmpty_app, isEmpty_app, isEmpty_app, isEmpty_app]
    rfl

/-- Claim C3 counterexample: the contact submission with name Jo, email
bad, empty subject and message hi collects three messages, not four, and
no name message is among them, since the two-character name passes the
minimum-length rule. -/
theorem contact_example_counterexample :
    (contactValidate ⟨"Jo", "bad", "", "", "", "hi"⟩).2.length = 3 ∧
    nameShortMsg ∉ (contactValidate ⟨"Jo", "bad", "", "", "", "hi"⟩).2 := by decide

/-- Claim C3 amended: validation collects every failure instead of
stopping at the first one; the submission with name Jo, email bad, empty
subject and message hi yields exactly the three messages for email,
subject and message with the flag false (the two-character name passes),
and a submission failing all five contact rules collects all five
messages in rule order. -/
theorem contact_collects_all_failures :
    contactValidate ⟨"Jo", "bad", "", "", "", "hi"⟩ =
      (false, [emailInvalidMsg, subjectRequiredMsg, messageShortMsg]) ∧
    contactValidate ⟨"J", "bad", "12", "", "", "hi"⟩ =
      (false, [nameShortMsg, emailInvalidMsg, contactPhoneMsg,
               subjectRequiredMsg, messageShortMsg]) := by decide

/-- Claim C2: for every valid catering submission the quote carries a
cost per person of 250 for a wedding, 180 for a corporate event and 150
for any other event type, and a total cost of guests times the cost per
person. -/
theorem catering_quote_cost (nowMs : Int) (r : CateringRaw)
    (h : cateringIsValid nowMs (readCatering r) = true) :
    ((cateringHandler nowMs r).quote.map CateringQuote.costPerPerson) =
      some (if (readCatering r).eventType = "wedding" then 250
            else if (readCatering r).eventType = "corporate" then 180 else 150) ∧
    ((cateringHandler nowMs r).quote.map CateringQuote.totalCost) =
      some ((readCatering r).guests *
        (if (readCatering r).eventType = "wedding" then 250
         else if (readCatering r).eventType = "corporate" then 180 else 150)) := by
  constructor <;> simp [cateringHandler, h, costPerPersonFor]

/-- Witness for claim C2 at a concrete valid wedding submission for 100
guests: cost per person 250 and total 25000. -/
theorem catering_quote_cost_witness :
    (cateringHandler 0 annaRaw).quote.map CateringQuote.costPerPerson = some 250 ∧
    (cateringHandler 0 annaRaw).quote.map CateringQuote.totalCost = some 25000 := by
  have h := catering_quote_cost 0 annaRaw (by decide)
  exact ⟨h.1.trans (by decide), h.2.trans (by decide)⟩

/-- Claim C4: on either path, a submission whose validation fails
produces exactly the one error outcome: a single notification of error
type with duration 0 carrying the whole collected list, no composed
mailto link, no quote, no success notification and no form reset. -/
theorem invalid_submission_outcome :
    (∀ r : ContactRaw, contactIsValid (readContact r) = false →
      contactHandler r =
        ⟨⟨"❌ Form Validation Error", "Please correct the following errors:",
          "error", 0, some (contactErrors (readContact r))⟩, none, false⟩) ∧
    (∀ (nowMs : Int) (r : CateringRaw),
      cateringIsValid nowMs (readCatering r) = false →
      cateringHandler nowMs r =
        ⟨⟨"❌ Form Validation Error", "Please correct the following errors:",
          "error", 0, some (cateringErrors nowMs (readCatering r))⟩, none, false⟩) := by
  constructor
  · intro r h
    simp [contactHandler, h]
  · intro nowMs r h
    simp [cateringHandler, h]

/-- Witness for claim C4: the invalid contact submission of the first
spec example takes the error branch with its three collected messages. -/
theorem invalid_submission_outcome_witness :
    contactHandler ⟨some "Jo", some "bad", none, none, none, some "hi"⟩ =
      ⟨⟨"❌ Form Validation Error", "Please correct the following errors:",
        "error", 0,
        some (contactErrors (readContact
          ⟨some "Jo", some "bad", none, none, none, some "hi"⟩))⟩,
       none, false⟩ :=
  invalid_submission_outcome.1
    ⟨some "Jo", some "bad", none, none, none, some "hi"⟩ (by decide)

/-- Claim C5: an error-type notification never schedules an auto-dismiss,
while a notification of any other type with duration d schedules its
close click at d and its removal from the document at d plus the fixed
300 millisecond exit-animation grace period. -/
theorem notification_dismissal (title msg ty : String) (d : Int)
    (l : Option (List String)) :
    autoDismissAt ⟨title, msg, "error", d, l⟩ = none ∧
    autoRemovalAt ⟨title, msg, "error", d, l⟩ = none ∧
    (ty ≠ "error" →
      autoDismissAt ⟨title, msg, ty, d, l⟩ = some d ∧
      autoRemovalAt ⟨title, msg, ty, d, l⟩ = some (d + 300)) := by
  refine ⟨rfl, rfl, fun h => ⟨?_, ?_⟩⟩
  · rw [autoDismissAt, if_neg h]
  · rw [autoRemovalAt, autoDismissAt, if_neg h]
    rfl

/-- Witness for claim C5: a success notification with the default 5000
duration is removed at 5300, an error one is never auto-removed. -/
theorem notification_dismissal_witness :
    autoDismissAt ⟨"t", "m", "error", 0, none⟩ = none ∧
    autoDismissAt ⟨"t", "m", "success", 5000, none⟩ = some 5000 ∧
    autoRemovalAt ⟨"t", "m", "success", 5000, none⟩ = some 5300 := by
  have h := notification_dismissal "t" "m" "success" 5000 none
  have h2 := h.2.2 (by decide)
  exact ⟨(notification_dismissal "t" "m" "success" 0 none).1, h2.1,
         h2.2.trans (by decide)⟩

/-- Claim C6: the date field is required (the empty date pushes the
required message, and any catering data with an empty date is invalid),
and a supplied date that parses as a calendar date passes the blocking
date rule exactly when its timestamp is at least the current timestamp
normalized to midnight. -/
theorem catering_date_rule (nowMs : Int) (s : String) (d : Int)
    (h : parseDateMs s = some d) :
    dateBlockingErrors nowMs "" = [dateRequiredMsg] ∧
    (∀ f : CateringData, f.date = "" → cateringIsValid nowMs f = false) ∧
    (dateBlockingErrors nowMs s = [] ↔ todayMidnight nowMs ≤ d) := by
  have hs : s ≠ "" := by
    intro h0
    subst h0
    have hnone : parseDateMs "" = none := rfl
    rw [hnone] at h
    exact Option.noConfusion h
  refine ⟨rfl, ?_, ?_⟩
  · intro f hdate
    have hreq : dateBlockingErrors nowMs f.date = [dateRequiredMsg] := by
      rw [hdate]
      exact rfl
    simp [cateringIsValid, hreq]
  · rw [dateBlockingErrors, if_neg hs, h]
    show (if d < todayMidnight nowMs then [futureDateMsg] else []) = [] ↔
      todayMidnight nowMs ≤ d
    constructor
    · intro hemp
      by_cases hlt : d < todayMidnight nowMs
      · rw [if_pos hlt] at hemp
        exact absurd hemp (by simp)
      · omega
    · intro hle
      rw [if_neg (by omega)]

/-- Witness for claim C6 at the concrete date 1970-01-04 with the clock
at the epoch. -/
theorem catering_date_rule_witness :
    dateBlockingErrors 0 "" = [dateRequiredMsg] ∧
    cateringIsValid 0 ⟨"", "", "", "", 0, "", ""⟩ = false ∧
    (dateBlockingErrors 0 "1970-01-04" = [] ↔ todayMidnight 0 ≤ 259200000) := by
  have h := catering_date_rule 0 "1970-01-04" 259200000 (by decide)
  exact ⟨h.1, h.2.1 ⟨"", "", "", "", 0, "", ""⟩ rfl, h.2.2⟩

/-- Claim C7 counterexample: a contact submission whose phone contains a
tab character passes validation entirely, although the tab is not among
the characters the claim lists (digits, space, hyphen, parentheses, plus
sign); the pattern admits any whitespace character. -/
theorem phone_tab_counterexample :
    contactValidate
      ⟨"John Doe", "a@b.com", "12345\t6789", "", "General", "Hello there, yes."⟩ =
      (true, []) ∧
    '\t' ∈ "12345\t6789".toList ∧ specPhoneChar '\t' = false := by decide

/-- Claim C7 amended: on the contact path an empty phone passes with no
error while a nonempty phone must match the pattern; on the catering
path the pattern applies unconditionally, so the empty phone fails; the
pattern accepts exactly 10 to 15 characters drawn from digits,
whitespace characters, hyphen, parentheses and plus sign. -/
theorem phone_rule_asymmetry :
    (∀ s : String, contactPhoneErrors s = [] ↔ (s = "" ∨ phoneTest s = true)) ∧
    (∀ s : String, cateringPhoneErrors s = [] ↔ phoneTest s = true) ∧
    (∀ s : String, phoneTest s = true ↔
      (10 ≤ s.length ∧ s.length ≤ 15 ∧ ∀ c ∈ s.toList, isPhoneChar c = true)) ∧
    cateringPhoneErrors "" = [cateringPhoneMsg] := by
  refine ⟨?_, ?_, ?_, by decide⟩
  · intro s
    rw [contactPhoneErrors]
    by_cases h : s = ""
    · simp [h]
    · rw [if_neg h]
      by_cases hp : phoneTest s = true
      · simp [hp, h]
      · simp [hp, h]
  · intro s
    rw [cateringPhoneErrors]
    by_cases hp : phoneTest s = true
    · simp [hp]
    · simp [hp]
  · intro s
    rw [phoneTest]
    simp [List.all_eq_true, and_assoc]

/-- Witness for claim C7: the empty phone passes on the contact path and
fails on the catering path. -/
theorem phone_rule_asymmetry_witness :
    contactPhoneErrors "" = [] ∧ cateringPhoneErrors "" = [cateringPhoneMsg] :=
  ⟨(phone_rule_asymmetry.1 "").mpr (Or.inl rfl), phone_rule_asymmetry.2.2.2⟩

/-- Claim C8: on both paths the email rule passes exactly on the strings
of the local-at-domain-dot-tld shape: a nonempty run of non-whitespace
non-at characters, a single at sign, and a domain containing a dot with
nonempty such runs on both sides. -/
theorem email_rule_shape (s : String) :
    (contactEmailErrors s = [] ↔ specEmailShape s) ∧
    (cateringEmailErrors s = [] ↔ specEmailShape s) := by
  have h := emailTest_iff s
  constructor
  · rw [contactEmailErrors]
    by_cases he : emailTest s = true
    · simp [if_pos he, h.mp he]
    · simp only [if_neg he]
      constructor
      · intro hab
        exact absurd hab (by simp)
      · intro hs
        exact absurd (h.mpr hs) he
  · rw [cateringEmailErrors]
    by_cases he : emailTest s = true
    · simp [if_pos he, h.mp he]
    · simp only [if_neg he]
      constructor
      · intro hab
        exact absurd hab (by simp)
      · intro hs
        exact absurd (h.mpr hs) he

/-- Claim C9: the guests input is integer-parsed with default 0 on parse
failure, and the guests rule passes exactly when the resulting integer
lies between 10 and 500. -/
theorem guests_rule (s : String) :
    (jsParseInt s = none → readGuests (some s) = 0) ∧
    (guestsErrors (readGuests (some s)) = [] ↔
      10 ≤ readGuests (some s) ∧ readGuests (some s) ≤ 500) := by
  constructor
  · intro h
    by_cases hs : s = ""
    · subst hs
      decide
    · simp [readGuests, hs, h]
  · generalize readGuests (some s) = g
    constructor
    · intro hemp
      by_cases hc : g = 0 ∨ g < 10 ∨ 500 < g
      · rw [guestsErrors, if_pos hc] at hemp
        exact absurd hemp (by simp)
      · push_neg at hc
        omega
    · intro hrange
      rw [guestsErrors, if_neg (by omega)]

/-- Witness for claim C9: a non-numeric guests value parses to the 0
default and fails the range rule. -/
theorem guests_rule_witness :
    readGuests (some "abc") = 0 ∧
    (guestsErrors (readGuests (some "abc")) = [] ↔
      10 ≤ readGuests (some "abc") ∧ readGuests (some "abc") ≤ 500) :=
  ⟨(guests_rule "abc").1 (by decide), (guests_rule "abc").2⟩

/-- Claim C10: every absent control or value reads as the empty string
(zero for guests), so both handlers run validation to completion on a
form with every field missing and take the error branch with the normal
message lists instead of failing. -/
theorem absent_fields_default :
    readTrim none = "" ∧ readOpt none = "" ∧ readGuests none = 0 ∧
    contactHandler contactAllAbsent =
      ⟨⟨"❌ Form Validation Error", "Please correct the following errors:",
        "error", 0,
        some [nameShortMsg, emailInvalidMsg, subjectRequiredMsg, messageShortMsg]⟩,
       none, false⟩ ∧
    (∀ nowMs : Int, cateringHandler nowMs cateringAllAbsent =
      ⟨⟨"❌ Form Validation Error", "Please correct the following errors:",
        "error", 0,
        some [nameShortMsg, emailInvalidMsg, cateringPhoneMsg, eventTypeMsg,
              guestsRangeMsg, dateRequiredMsg]⟩,
       none, false⟩) := by
  refine ⟨rfl, rfl, by decide, by decide, fun nowMs => rfl⟩
